import Mathlib

/-!
Shallow embedding of the derived-metrics engine of the HR-Management backend:
the attendance hour/status derivation (src/models/Attendance.js), the leave
duration/overlap/state-transition logic (the Leave schema and the leave routes),
and the call-data performance scorer with its checkout lock (src/models/CallData.js
and the call-data routes).

JavaScript Date values are modelled as integers counting milliseconds since the
epoch; fractional quantities (hours, days, scores) are modelled as exact
rationals, the standard exact model of the double arithmetic the source performs
on these small values.  Mongoose documents are modelled as structures holding
exactly the schema paths; an assignment the source makes to a path that is not
declared in the schema is dropped, which is what mongoose strict mode (the
default) does at persistence time.  A fallible write is an Except value: an
error means the record was not persisted.
-/

namespace HRM

/-- Milliseconds since the epoch, the value of a JS Date. -/
abbrev Millis := Int

def msPerHour : Int := 1000 * 60 * 60

def msPerDay : Int := 1000 * 3600 * 24

/-- JS Math.ceil on an exact rational. -/
def jsCeil (q : ℚ) : Int := ⌈q⌉

/-- JS Math.round: round half toward positive infinity. -/
def jsRound (q : ℚ) : Int := ⌊q + 1/2⌋

/-- The two-decimal rounding the clock-out route applies:
Math.round(hours * 100) / 100. -/
def jsRound2 (q : ℚ) : ℚ := ((jsRound (q * 100) : ℚ)) / 100

/-- Truncation of a timestamp to midnight, the effect of
date.setHours(0, 0, 0, 0) on a Date (modelled against a fixed UTC day grid). -/
def normalizeDay (t : Millis) : Millis := msPerDay * (Int.fdiv t msPerDay)

/-- Roles of the employee schema: enum ["admin", "employee", "manager"]. -/
inductive Role
  | admin
  | employee
  | manager
deriving DecidableEq, Repr

/-- The acting identity supplied by the auth middleware (req.employee). -/
structure Actor where
  id : Nat
  role : Role
deriving DecidableEq, Repr

/-! ## Attendance (src/models/Attendance.js) -/

/-- Attendance status enum:
["Present", "Absent", "Late", "Half Day", "Holiday"]. -/
inductive AttStatus
  | Present
  | Absent
  | Late
  | HalfDay
  | Holiday
deriving DecidableEq, Repr

/-- The schema paths of an attendance document that the derivation logic
reads or writes.  clockIn, clockOut, breakStart, breakEnd are optional Dates;
totalHours and overtimeHours default to 0; status defaults to Absent. -/
structure Attendance where
  employee : Nat
  date : Millis
  clockIn : Option Millis
  clockOut : Option Millis
  breakStart : Option Millis
  breakEnd : Option Millis
  totalHours : ℚ
  overtimeHours : ℚ
  status : AttStatus
deriving DecidableEq, Repr

/-- The break span subtracted by the pre-save hook: breakEnd - breakStart when
both break timestamps are present, and nothing otherwise. -/
def breakMillis (r : Attendance) : Int :=
  match r.breakStart, r.breakEnd with
  | some bs, some be => be - bs
  | _, _ => 0

/-- attendanceSchema.pre("save"): when both clockIn and clockOut are present,
recompute totalHours (clamped at 0, minus a full break pair), overtimeHours,
and the status ladder; otherwise leave every field untouched. -/
def attendancePreSave (r : Attendance) : Attendance :=
  match r.clockIn, r.clockOut with
  | some cin, some cout =>
    let totalMs : Int := (cout - cin) - breakMillis r
    let totalHours : ℚ := max 0 ((totalMs : ℚ) / (msPerHour : ℚ))
    let overtimeHours : ℚ := max 0 (totalHours - 8)
    let status : AttStatus :=
      if totalHours ≥ 8 then AttStatus.Present
      else if totalHours ≥ 4 then AttStatus.HalfDay
      else if totalHours > 0 then AttStatus.Late
      else r.status
    { r with totalHours := totalHours, overtimeHours := overtimeHours,
             status := status }
  | _, _ => r

/-- router.post("/clock-out") in src/routes/attendance.js: refuse when already
clocked out, otherwise stamp clockOut, assign the two-decimal rounded hour
count, and save (which runs the pre-save hook).  The source subtracts a missing
clockIn as NaN; such a record cannot arise from the clock-in flow, and the
embedding reports it as an error. -/
def clockOutRoute (now : Millis) (r : Attendance) : Except String Attendance :=
  if r.clockOut.isSome then Except.error "You have already clocked out today"
  else
    match r.clockIn with
    | some cin =>
        let r1 : Attendance :=
          { r with clockOut := some now,
                   totalHours := jsRound2 (((now - cin : Int) : ℚ) / (msPerHour : ℚ)) }
        Except.ok (attendancePreSave r1)
    | none => Except.error "missing clock-in timestamp"

/-- Body of the admin attendance edit (PUT /api/attendance/:id). -/
structure UpdateAttendanceBody where
  clockIn : Option Millis
  clockOut : Option Millis
  status : Option AttStatus
  notes : Option String
deriving Repr

/-- router.put("/:id") in src/routes/attendance.js (admin edit): overwrite the
supplied fields, recompute a rounded totalHours when both clock times are
available, and save.  The updatedBy assignment targets a path the attendance
schema does not declare and is dropped. -/
def updateAttendanceRoute (r : Attendance) (b : UpdateAttendanceBody) : Attendance :=
  let r := match b.clockIn with | some v => { r with clockIn := some v } | none => r
  let r := match b.clockOut with | some v => { r with clockOut := some v } | none => r
  let r := match b.status with | some s => { r with status := s } | none => r
  let r :=
    match r.clockIn, r.clockOut with
    | some cin, some cout =>
        { r with totalHours := jsRound2 (((cout - cin : Int) : ℚ) / (msPerHour : ℚ)) }
    | _, _ => r
  attendancePreSave r

end HRM

namespace HRM

/-! ## Leave (the Leave schema in src/unnamed/part_001 and src/routes/leaves.js) -/

/-- Leave status enum: ["Pending", "Approved", "Rejected", "Cancelled"],
default Pending. -/
inductive LeaveStatus
  | Pending
  | Approved
  | Rejected
  | Cancelled
deriving DecidableEq, Repr

/-- The schema paths of a leave document that the duration, overlap and
transition logic reads or writes.  The schema declares approvedBy and
approvedDate but no rejectedBy, rejectedAt or comments path, so route
assignments to those names are dropped at persistence time (strict mode). -/
structure Leave where
  id : Nat
  employee : Nat
  startDate : Millis
  endDate : Millis
  totalDays : ℚ
  reason : String
  status : LeaveStatus
  approvedBy : Option Nat
  approvedDate : Option Millis
  rejectionReason : Option String
  isHalfDay : Bool
deriving DecidableEq, Repr

/-- First leaveSchema.pre("save") hook: totalDays is recomputed from the date
range as Math.ceil((end - start) / (1000*3600*24)) + 1, replaced by 0.5 when
isHalfDay is set.  startDate and endDate are required paths, so the guard on
their presence always passes. -/
def leaveComputeTotalDays (l : Leave) : Leave :=
  { l with totalDays :=
      if l.isHalfDay then 0.5
      else (jsCeil (((l.endDate - l.startDate : Int) : ℚ) / (msPerDay : ℚ)) : ℚ) + 1 }

/-- Second leaveSchema.pre("save") hook: reject the write when endDate is
before startDate. -/
def leaveValidateDates (l : Leave) : Except String Leave :=
  if l.endDate < l.startDate then
    Except.error "End date cannot be before start date"
  else Except.ok l

/-- Third leaveSchema.pre("save") hook: when the status path was modified and
the new status is Approved, stamp approvedDate with the save time. -/
def leaveSetApprovedDate (statusModified : Bool) (now : Millis) (l : Leave) : Leave :=
  if statusModified ∧ l.status = LeaveStatus.Approved then
    { l with approvedDate := some now }
  else l

/-- A save of a leave document: the three pre-save hooks in registration
order.  An error means the document was not persisted. -/
def leaveSave (statusModified : Bool) (now : Millis) (l : Leave) : Except String Leave :=
  (leaveValidateDates (leaveComputeTotalDays l)).map
    (leaveSetApprovedDate statusModified now)

/-- The filter of leaveSchema.statics.checkOverlappingLeaves and of the inline
overlap query in the create route: same employee, status Pending or Approved,
existing.startDate <= newEnd and existing.endDate >= newStart, and not the
excluded document when an exclusion id is given. -/
def overlapPred (employeeId : Nat) (startDate endDate : Millis)
    (excludeLeaveId : Option Nat) (l : Leave) : Bool :=
  l.employee == employeeId &&
  (l.status == LeaveStatus.Pending || l.status == LeaveStatus.Approved) &&
  decide (l.startDate ≤ endDate) && decide (startDate ≤ l.endDate) &&
  (match excludeLeaveId with
   | some ex => l.id != ex
   | none => true)

/-- leaveSchema.statics.checkOverlappingLeaves: findOne over the stored leave
documents with the overlap filter. -/
def checkOverlappingLeaves (db : List Leave) (employeeId : Nat)
    (startDate endDate : Millis) (excludeLeaveId : Option Nat) : Option Leave :=
  db.find? (overlapPred employeeId startDate endDate excludeLeaveId)

/-- Request body of POST /api/leaves (type omitted: it does not feed any
derived computation). -/
structure CreateLeaveBody where
  startDate : Millis
  endDate : Millis
  reason : String
  isHalfDay : Bool
deriving Repr

/-- router.post("/") in src/routes/leaves.js: validate date order and the
past-date rule, compute a provisional totalDays, refuse when an overlapping
Pending or Approved leave of the same employee exists, then construct and save
the document.  The constructor receives halfDay, which is not a schema path,
so the stored isHalfDay keeps its default false; the pre-save hook then
recomputes totalDays from the stored fields.  On success the updated store and
the persisted document are returned. -/
def createLeave (db : List Leave) (employeeId : Nat) (now : Millis)
    (newId : Nat) (b : CreateLeaveBody) : Except String (List Leave × Leave) :=
  if b.startDate > b.endDate then
    Except.error "Start date cannot be after end date"
  else if b.startDate < now then
    Except.error "Cannot apply for leave in the past"
  else
    match checkOverlappingLeaves db employeeId b.startDate b.endDate none with
    | some _ => Except.error "You already have a leave request for overlapping dates"
    | none =>
        (leaveSave true now
          { id := newId, employee := employeeId, startDate := b.startDate,
            endDate := b.endDate,
            totalDays :=
              if b.isHalfDay then 0.5
              else (jsCeil (((b.endDate - b.startDate : Int) : ℚ) / (msPerDay : ℚ)) : ℚ) + 1,
            reason := b.reason, status := LeaveStatus.Pending,
            approvedBy := none, approvedDate := none, rejectionReason := none,
            isHalfDay := false }).map (fun l => (db ++ [l], l))

/-- router.put("/:id/approve") in src/routes/leaves.js: only a Pending request
may be approved; on success status becomes Approved and approvedBy the acting
admin.  The route also assigns approvedAt and comments, which are not schema
paths and are dropped; the timestamp that persists is approvedDate, stamped by
the third pre-save hook because the status path was modified. -/
def approveLeave (actorId : Nat) (now : Millis) (leave : Leave) : Except String Leave :=
  if leave.status ≠ LeaveStatus.Pending then
    Except.error "Only pending leave requests can be approved"
  else
    leaveSave true now
      { leave with status := LeaveStatus.Approved, approvedBy := some actorId }

/-- router.put("/:id/reject") in src/routes/leaves.js: only a Pending request
may be rejected.  The route assigns rejectedBy, rejectedAt and comments, none
of which is a schema path, so the persisted document records only the status
change. -/
def rejectLeave (_actorId : Nat) (now : Millis) (leave : Leave) : Except String Leave :=
  if leave.status ≠ LeaveStatus.Pending then
    Except.error "Only pending leave requests can be rejected"
  else
    leaveSave true now { leave with status := LeaveStatus.Rejected }

/-- Request body of PUT /api/leaves/:id; a field is none when absent from the
request.  Dates take effect only when both are supplied, as in the route. -/
structure UpdateLeaveBody where
  reason : Option String
  halfDay : Option Bool
  dates : Option (Millis × Millis)
deriving Repr

/-- router.put("/:id") in src/routes/leaves.js: the owner may update a Pending
request, an admin any request; when both dates are supplied their order is
validated and totalDays is recomputed route-side from the body halfDay flag
(absent means falsy) before the save, whose hooks recompute it again from the
stored fields.  The body halfDay is assigned to a non-schema path and dropped.
No overlap query is issued anywhere on this path. -/
def updateLeave (actor : Actor) (now : Millis) (leave : Leave)
    (b : UpdateLeaveBody) : Except String Leave :=
  if leave.employee ≠ actor.id ∧ actor.role ≠ Role.admin then
    Except.error "Access denied"
  else if leave.status ≠ LeaveStatus.Pending ∧ actor.role ≠ Role.admin then
    Except.error "Only pending leave requests can be updated"
  else
    match b.dates with
    | some (s, e) =>
        if s > e then Except.error "Start date cannot be after end date"
        else
          leaveSave false now
            { leave with reason := b.reason.getD leave.reason,
                         startDate := s, endDate := e,
                         totalDays :=
                           if b.halfDay.getD false then 0.5
                           else (jsCeil (((e - s : Int) : ℚ) / (msPerDay : ℚ)) : ℚ) + 1 }
    | none =>
        leaveSave false now { leave with reason := b.reason.getD leave.reason }

/-! ## Call data (src/models/CallData.js and the call-data router) -/

/-- The schema paths of a call-data document that the scorer and the checkout
lock read or write.  The raw counters are numbers; date is a calendar-day
timestamp. -/
structure CallData where
  id : Nat
  employee : Nat
  date : Millis
  totalCalls : ℚ
  totalCallTime : ℚ
  interestedStudents : ℚ
  visitedToday : ℚ
  performanceScore : ℚ
  notes : String
  updatedBy : Option Nat
deriving DecidableEq, Repr

/-- The weighted sum assigned by callDataSchema.pre("save"):
visitedToday * 40 + interestedStudents * 30 + totalCallTime * 0.2
+ totalCalls * 0.1. -/
def computeScore (visitedToday interestedStudents totalCallTime totalCalls : ℚ) : ℚ :=
  visitedToday * 40 + interestedStudents * 30 +
    totalCallTime * (0.2 : ℚ) + totalCalls * (0.1 : ℚ)

/-- callDataSchema.pre("save"): performanceScore is overwritten with the
weighted sum of the stored counters on every save, unconditionally. -/
def callDataPreSave (r : CallData) : CallData :=
  { r with performanceScore :=
      computeScore r.visitedToday r.interestedStudents r.totalCallTime r.totalCalls }

/-- The save-time document validation of the CallData schema: totalCalls,
totalCallTime, interestedStudents, visitedToday and performanceScore each
carry a min: 0 validator, checked in declaration order; a violation makes the
save fail with a ValidationError and nothing is persisted. -/
def callDataValidate (r : CallData) : Except String CallData :=
  if r.totalCalls < 0 then
    Except.error "ValidationError: totalCalls below minimum (0)"
  else if r.totalCallTime < 0 then
    Except.error "ValidationError: totalCallTime below minimum (0)"
  else if r.interestedStudents < 0 then
    Except.error "ValidationError: interestedStudents below minimum (0)"
  else if r.visitedToday < 0 then
    Except.error "ValidationError: visitedToday below minimum (0)"
  else if r.performanceScore < 0 then
    Except.error "ValidationError: performanceScore below minimum (0)"
  else Except.ok r

/-- A full save of a call-data document: mongoose runs document validation as
the first pre-save step, before the score hook, so the min: 0 validators see
the document as the caller left it and the score hook runs only on documents
that passed them. -/
def callDataSave (r : CallData) : Except String CallData :=
  (callDataValidate r).map callDataPreSave

/-- The attendance lookup both call-data guards issue: the attendance
document of the acting employee whose date falls on the current calendar
day. -/
def findTodayAttendance (attDb : List Attendance) (employeeId : Nat)
    (today : Millis) : Option Attendance :=
  attDb.find? (fun a =>
    a.employee == employeeId && decide (today ≤ a.date) &&
      decide (a.date < today + msPerDay))

/-- Whether the non-admin checkout lock fires: the calendar day of the record
is today and the attendance of the acting employee for today has clockOut
set. -/
def checkoutLocked (attDb : List Attendance) (actorId : Nat) (today : Millis)
    (recordDate : Millis) : Bool :=
  if recordDate == today then
    match findTodayAttendance attDb actorId today with
    | some a => a.clockOut.isSome
    | none => false
  else false

/-- Request body of PUT /api/calls/:id; a field is none when absent. -/
structure UpdateCallBody where
  totalCalls : Option ℚ
  totalCallTime : Option ℚ
  interestedStudents : Option ℚ
  visitedToday : Option ℚ
  notes : Option String
deriving Repr

/-- router.put("/:id") of the call-data router: only the owner or an admin may
edit; a non-admin editing a record dated today is refused once their own
attendance shows a clockOut; then the supplied fields are overwritten,
updatedBy is stamped, and the save recomputes performanceScore.  The today
argument is the current date truncated to midnight. -/
def updateCallData (actor : Actor) (today : Millis) (attDb : List Attendance)
    (cd : CallData) (b : UpdateCallBody) : Except String CallData :=
  if cd.employee ≠ actor.id ∧ actor.role ≠ Role.admin then
    Except.error "Access denied"
  else if actor.role ≠ Role.admin ∧
      checkoutLocked attDb actor.id today (normalizeDay cd.date) = true then
    Except.error "Cannot edit call data after checking out"
  else
    let cd := match b.totalCalls with
      | some v => { cd with totalCalls := v } | none => cd
    let cd := match b.totalCallTime with
      | some v => { cd with totalCallTime := v } | none => cd
    let cd := match b.interestedStudents with
      | some v => { cd with interestedStudents := v } | none => cd
    let cd := match b.visitedToday with
      | some v => { cd with visitedToday := v } | none => cd
    let cd := match b.notes with
      | some v => { cd with notes := v } | none => cd
    Except.ok (callDataPreSave { cd with updatedBy := some actor.id })

/-- Request body of POST /api/calls: the four counters are required; notes,
date and the target employee are optional. -/
structure PostCallBody where
  totalCalls : ℚ
  totalCallTime : ℚ
  interestedStudents : ℚ
  visitedToday : ℚ
  notes : Option String
  date : Option Millis
  employee : Option Nat
deriving Repr

/-- The find-or-create lookup of POST /api/calls: the call-data document of
the target employee whose date falls on the calendar day of the record. -/
def findCallData (callDb : List CallData) (employeeId : Nat)
    (recordDate : Millis) : Option CallData :=
  callDb.find? (fun c =>
    c.employee == employeeId && decide (recordDate ≤ c.date) &&
      decide (c.date < recordDate + msPerDay))

/-- router.post("/") of the call-data router: a non-admin may not target
another employee; the record date defaults to now, truncated to midnight; a
non-admin writing the record dated today is refused once their own attendance shows a
clockOut; then the document for (employee, day) is updated if it exists and
created otherwise, and the save recomputes performanceScore. -/
def postCallData (actor : Actor) (today now : Millis) (attDb : List Attendance)
    (callDb : List CallData) (newId : Nat) (b : PostCallBody) :
    Except String CallData :=
  if b.employee.isSome ∧ actor.role ≠ Role.admin then
    Except.error "Only admins can add data for other employees"
  else if actor.role ≠ Role.admin ∧
      checkoutLocked attDb actor.id today (normalizeDay (b.date.getD now)) = true then
    Except.error "Cannot add/edit call data after checking out"
  else
    match findCallData callDb (b.employee.getD actor.id) (normalizeDay (b.date.getD now)) with
    | some cd =>
        Except.ok (callDataPreSave
          { cd with totalCalls := b.totalCalls,
                    totalCallTime := b.totalCallTime,
                    interestedStudents := b.interestedStudents,
                    visitedToday := b.visitedToday,
                    notes := b.notes.getD cd.notes,
                    updatedBy := some actor.id })
    | none =>
        Except.ok (callDataPreSave
          { id := newId, employee := b.employee.getD actor.id,
            date := normalizeDay (b.date.getD now),
            totalCalls := b.totalCalls, totalCallTime := b.totalCallTime,
            interestedStudents := b.interestedStudents,
            visitedToday := b.visitedToday, performanceScore := 0,
            notes := b.notes.getD "", updatedBy := none })

/-! ## Concrete records used by the boundary examples and witnesses.
Dates are UTC midnights of January 2024, matching the worked examples of the
specification. -/

def d20240120 : Millis := 1705708800000

def d20240122 : Millis := 1705881600000

def d20240123 : Millis := 1705968000000

def d20240125 : Millis := 1706140800000

def d20240126 : Millis := 1706227200000

def d20240127 : Millis := 1706313600000

/-- An Approved vacation of employee 1 over [2024-01-20, 2024-01-25]. -/
def approvedVacation : Leave :=
  { id := 1, employee := 1, startDate := d20240120, endDate := d20240125,
    totalDays := 6, reason := "Family vacation", status := LeaveStatus.Approved,
    approvedBy := none, approvedDate := none, rejectionReason := none,
    isHalfDay := false }

def exampleDb : List Leave := [approvedVacation]

/-- A Pending request of the same employee over [2024-01-26, 2024-01-27]. -/
def pendingLeave : Leave :=
  { id := 2, employee := 1, startDate := d20240126, endDate := d20240127,
    totalDays := 2, reason := "Errand", status := LeaveStatus.Pending,
    approvedBy := none, approvedDate := none, rejectionReason := none,
    isHalfDay := false }

def rejectedLeave : Leave := { pendingLeave with status := LeaveStatus.Rejected }

def approvedLeave : Leave :=
  { pendingLeave with status := LeaveStatus.Approved, approvedBy := some 7,
                      approvedDate := some 1000 }

/-- A fresh document over [2024-01-20, 2024-01-25] before any save; the hook
will store totalDays = 6. -/
def sixDayLeave : Leave :=
  { id := 3, employee := 1, startDate := d20240120, endDate := d20240125,
    totalDays := 0, reason := "Trip", status := LeaveStatus.Pending,
    approvedBy := none, approvedDate := none, rejectionReason := none,
    isHalfDay := false }

def sixDayLeaveSaved : Leave := { sixDayLeave with totalDays := 6 }

def actorEmp1 : Actor := { id := 1, role := Role.employee }

def adminActor : Actor := { id := 9, role := Role.admin }

/-- Update body moving a request onto [2024-01-22, 2024-01-23], inside the
Approved vacation above. -/
def overlapUpdateBody : UpdateLeaveBody :=
  { reason := none, halfDay := none, dates := some (d20240122, d20240123) }

def updatedOverlapLeave : Leave :=
  { pendingLeave with startDate := d20240122, endDate := d20240123,
                      totalDays := 2 }

def overlapCreateBody : CreateLeaveBody :=
  { startDate := d20240122, endDate := d20240123, reason := "Clash",
    isHalfDay := false }

/-- Attendance records pinned at the status thresholds: exactly 8 hours,
7.999 hours, 4 hours, 3.999 hours and 0 hours of work. -/
def att8 : Attendance :=
  { employee := 1, date := 0, clockIn := some 0,
    clockOut := some (8 * msPerHour), breakStart := none, breakEnd := none,
    totalHours := 0, overtimeHours := 0, status := AttStatus.Absent }

def att7999 : Attendance := { att8 with clockOut := some 28796400 }

def att4 : Attendance := { att8 with clockOut := some (4 * msPerHour) }

def att3999 : Attendance := { att8 with clockOut := some 14396400 }

def att0 : Attendance :=
  { att8 with clockOut := some 0, status := AttStatus.Holiday }

/-- Nine hours clocked with a one-hour break pair. -/
def attBreak : Attendance :=
  { att8 with clockOut := some (9 * msPerHour),
              breakStart := some (2 * msPerHour),
              breakEnd := some (3 * msPerHour) }

/-- A record with a clock-in but no clock-out carrying a caller-supplied
totalHours of 5. -/
def halfOpenAttendance : Attendance :=
  { employee := 1, date := 0, clockIn := some 0, clockOut := none,
    breakStart := none, breakEnd := none, totalHours := 5,
    overtimeHours := 0, status := AttStatus.Absent }

/-- Attendance of employee 2 showing a completed clock-out on day 0. -/
def checkedOutAtt : Attendance :=
  { employee := 2, date := 0, clockIn := some 0,
    clockOut := some (8 * msPerHour), breakStart := none, breakEnd := none,
    totalHours := 8, overtimeHours := 0, status := AttStatus.Present }

def attDbEmp2 : List Attendance := [checkedOutAtt]

/-- Call data of employee 2 dated day 0. -/
def cdEmp2 : CallData :=
  { id := 4, employee := 2, date := 0, totalCalls := 10, totalCallTime := 60,
    interestedStudents := 3, visitedToday := 2, performanceScore := 0,
    notes := "", updatedBy := none }

def emptyUpdateCallBody : UpdateCallBody :=
  { totalCalls := none, totalCallTime := none, interestedStudents := none,
    visitedToday := none, notes := none }

/-- The persisted image of cdEmp2 after an admin edit with an empty body:
updatedBy stamped and the score recomputed to 2*40 + 3*30 + 60*0.2 + 10*0.1. -/
def cdEmp2Updated : CallData :=
  { cdEmp2 with updatedBy := some 9, performanceScore := 183 }

/-- A record carrying a negative counter, exercising the absence of clamping
in the scorer. -/
def negativeCallData : CallData :=
  { id := 5, employee := 3, date := 0, totalCalls := 0, totalCallTime := 0,
    interestedStudents := 0, visitedToday := -1, performanceScore := 0,
    notes := "", updatedBy := none }

/-- The persisted image of cdEmp2 after a direct save: the counters pass the
min: 0 validators and the hook stores the score 183. -/
def cdEmp2Saved : CallData := { cdEmp2 with performanceScore := 183 }

/-! ## Theorems -/

/-- The overlap filter as a proposition over the stored leave fields. -/
theorem overlapPred_eq_true_iff (employeeId : Nat) (s e : Millis)
    (excl : Option Nat) (l : Leave) :
    overlapPred employeeId s e excl l = true ↔
      (l.employee = employeeId ∧
       (l.status = LeaveStatus.Pending ∨ l.status = LeaveStatus.Approved) ∧
       l.startDate ≤ e ∧ s ≤ l.endDate ∧
       (∀ ex, excl = some ex → l.id ≠ ex)) := by
  cases excl <;> simp [overlapPred, and_assoc]

/-- C2: the overlap check reports a conflict exactly when some stored request
of the same employee with status Pending or Approved, other than the excluded
one, satisfies existing.startDate <= newEnd and existing.endDate >= newStart;
on the worked example, [2024-01-22, 2024-01-23] and the boundary-sharing
[2024-01-25, 2024-01-26] conflict with the Approved [2024-01-20, 2024-01-25]
while the adjacent [2024-01-26, 2024-01-27] does not. -/
theorem claim_C2_overlap_predicate :
    (∀ (db : List Leave) (emp : Nat) (s e : Millis) (excl : Option Nat),
      (checkOverlappingLeaves db emp s e excl).isSome ↔
        ∃ l ∈ db, l.employee = emp ∧
          (l.status = LeaveStatus.Pending ∨ l.status = LeaveStatus.Approved) ∧
          l.startDate ≤ e ∧ s ≤ l.endDate ∧
          (∀ ex, excl = some ex → l.id ≠ ex)) ∧
    (checkOverlappingLeaves exampleDb 1 d20240122 d20240123 none).isSome = true ∧
    (checkOverlappingLeaves exampleDb 1 d20240126 d20240127 none).isSome = false ∧
    (checkOverlappingLeaves exampleDb 1 d20240125 d20240126 none).isSome = true := by
  refine ⟨?_, by with_unfolding_all rfl, by with_unfolding_all rfl,
    by with_unfolding_all rfl⟩
  intro db emp s e excl
  rw [checkOverlappingLeaves, List.find?_isSome]
  constructor
  · rintro ⟨l, hl, hp⟩
    exact ⟨l, hl, (overlapPred_eq_true_iff emp s e excl l).mp hp⟩
  · rintro ⟨l, hl, hp⟩
    exact ⟨l, hl, (overlapPred_eq_true_iff emp s e excl l).mpr hp⟩

/-- C1: a persisted leave with startDate <= endDate stores totalDays = 0.5
when its half-day flag is set and the inclusive ceiling day count otherwise;
start == end stores 1; [2024-01-20, 2024-01-25] stores 6; endDate < startDate
makes the save fail with the invalid-range error, persisting nothing. -/
theorem claim_C1_leave_duration :
    (∀ (sm : Bool) (now : Millis) (l r : Leave),
        leaveSave sm now l = Except.ok r →
        l.startDate ≤ l.endDate ∧
        r.totalDays = (if l.isHalfDay then (0.5 : ℚ)
          else (jsCeil (((l.endDate - l.startDate : Int) : ℚ) / (msPerDay : ℚ)) : ℚ) + 1)) ∧
    (∀ (sm : Bool) (now : Millis) (l : Leave), l.endDate < l.startDate →
        leaveSave sm now l = Except.error "End date cannot be before start date") ∧
    (∀ (sm : Bool) (now : Millis) (l r : Leave),
        leaveSave sm now l = Except.ok r → l.startDate = l.endDate →
        l.isHalfDay = false → r.totalDays = 1) ∧
    leaveSave false 0 sixDayLeave = Except.ok sixDayLeaveSaved ∧
    sixDayLeaveSaved.totalDays = 6 := by
  have key : ∀ (sm : Bool) (now : Millis) (l r : Leave),
      leaveSave sm now l = Except.ok r →
      l.startDate ≤ l.endDate ∧
      r.totalDays = (if l.isHalfDay then (0.5 : ℚ)
        else (jsCeil (((l.endDate - l.startDate : Int) : ℚ) / (msPerDay : ℚ)) : ℚ) + 1) := by
    intro sm now l r h
    rw [leaveSave, leaveValidateDates] at h
    split at h
    · exact absurd h (by simp [Except.map])
    · rename_i hlt
      simp only [leaveComputeTotalDays] at hlt
      refine ⟨not_lt.mp hlt, ?_⟩
      simp only [Except.map] at h
      rw [← Except.ok.inj h, leaveSetApprovedDate]
      split <;> simp [leaveComputeTotalDays]
  refine ⟨key, ?_, ?_, by with_unfolding_all rfl, by with_unfolding_all rfl⟩
  · intro sm now l hlt
    rw [leaveSave, leaveValidateDates]
    split
    · simp [Except.map]
    · rename_i hc
      exact absurd (by simpa [leaveComputeTotalDays] using hlt) hc
  · intro sm now l r h heq hhalf
    obtain ⟨-, htd⟩ := key sm now l r h
    rw [htd, hhalf, heq]
    simp [jsCeil]

/-- Witness for C1: the duration clause applied to the concrete save of the
[2024-01-20, 2024-01-25] request. -/
theorem claim_C1_leave_duration_witness :
    sixDayLeave.startDate ≤ sixDayLeave.endDate ∧
    sixDayLeaveSaved.totalDays =
      (if sixDayLeave.isHalfDay then (0.5 : ℚ)
        else (jsCeil (((sixDayLeave.endDate - sixDayLeave.startDate : Int) : ℚ) /
          (msPerDay : ℚ)) : ℚ) + 1) :=
  claim_C1_leave_duration.1 false 0 sixDayLeave sixDayLeaveSaved
    (by with_unfolding_all rfl)

/-- With both clock timestamps present, the saved totalHours is the clamped
worked span minus the break span, in hours. -/
theorem attendancePreSave_totalHours (r : Attendance) (cin cout : Millis)
    (hi : r.clockIn = some cin) (ho : r.clockOut = some cout) :
    (attendancePreSave r).totalHours =
      max 0 ((((cout - cin) - breakMillis r : Int) : ℚ) / (msPerHour : ℚ)) := by
  simp [attendancePreSave, hi, ho]

/-- With both clock timestamps present, the saved overtimeHours is the saved
totalHours over eight, clamped at zero. -/
theorem attendancePreSave_overtime (r : Attendance) (cin cout : Millis)
    (hi : r.clockIn = some cin) (ho : r.clockOut = some cout) :
    (attendancePreSave r).overtimeHours =
      max 0 ((attendancePreSave r).totalHours - 8) := by
  simp [attendancePreSave, hi, ho]

/-- With a clock timestamp missing, the save leaves the document untouched. -/
theorem attendancePreSave_skip (r : Attendance)
    (h : r.clockIn = none ∨ r.clockOut = none) : attendancePreSave r = r := by
  cases hi : r.clockIn <;> cases ho : r.clockOut <;>
    simp [attendancePreSave, hi, ho] <;> simp_all

/-- A break pair with only one side present contributes nothing. -/
theorem breakMillis_of_one_sided (r : Attendance)
    (h : r.breakStart = none ∨ r.breakEnd = none) : breakMillis r = 0 := by
  cases hbs : r.breakStart <;> cases hbe : r.breakEnd <;>
    simp [breakMillis, hbs, hbe] <;> simp_all

/-- C3: with both clock timestamps present the stored totalHours is
max(0, clockOut - clockIn - break)/1h, where the break span is subtracted
exactly when both break timestamps are present and a one-sided break has zero
effect, and the stored overtimeHours is max(0, totalHours - 8). -/
theorem claim_C3_attendance_hours :
    (∀ (r : Attendance) (cin cout bs be : Millis),
        r.clockIn = some cin → r.clockOut = some cout →
        r.breakStart = some bs → r.breakEnd = some be →
        (attendancePreSave r).totalHours =
          max 0 ((((cout - cin) - (be - bs) : Int) : ℚ) / (msPerHour : ℚ))) ∧
    (∀ (r : Attendance) (cin cout : Millis),
        r.clockIn = some cin → r.clockOut = some cout →
        r.breakStart = none ∨ r.breakEnd = none →
        (attendancePreSave r).totalHours =
          max 0 (((cout - cin : Int) : ℚ) / (msPerHour : ℚ))) ∧
    (∀ (r : Attendance) (cin cout : Millis),
        r.clockIn = some cin → r.clockOut = some cout →
        (attendancePreSave r).overtimeHours =
          max 0 ((attendancePreSave r).totalHours - 8)) := by
  refine ⟨?_, ?_, fun r cin cout hi ho => attendancePreSave_overtime r cin cout hi ho⟩
  · intro r cin cout bs be hi ho hbs hbe
    rw [attendancePreSave_totalHours r cin cout hi ho]
    simp [breakMillis, hbs, hbe]
  · intro r cin cout hi ho hb
    rw [attendancePreSave_totalHours r cin cout hi ho,
      breakMillis_of_one_sided r hb]
    simp

/-- Witness for C3: the break clause applied to nine clocked hours with a
one-hour break pair. -/
theorem claim_C3_attendance_hours_witness :
    (attendancePreSave attBreak).totalHours =
      max 0 ((((9 * msPerHour - 0) - (3 * msPerHour - 2 * msPerHour) : Int) : ℚ) /
        (msPerHour : ℚ)) :=
  claim_C3_attendance_hours.1 attBreak 0 (9 * msPerHour) (2 * msPerHour)
    (3 * msPerHour) rfl rfl rfl rfl

/-- C4: with both clock timestamps present the stored status follows the
threshold ladder over the derived totalHours (8 and 4 hour cutoffs, Late for
any positive shortfall, untouched at zero); 8.0 gives Present, 7.999 HalfDay,
4.0 HalfDay, 3.999 Late and 0 keeps the caller-supplied value. -/
theorem claim_C4_attendance_status :
    (∀ (r : Attendance) (cin cout : Millis),
        r.clockIn = some cin → r.clockOut = some cout →
        (attendancePreSave r).status =
          (if (attendancePreSave r).totalHours ≥ 8 then AttStatus.Present
           else if (attendancePreSave r).totalHours ≥ 4 then AttStatus.HalfDay
           else if (attendancePreSave r).totalHours > 0 then AttStatus.Late
           else r.status)) ∧
    (attendancePreSave att8).status = AttStatus.Present ∧
    (attendancePreSave att7999).status = AttStatus.HalfDay ∧
    (attendancePreSave att4).status = AttStatus.HalfDay ∧
    (attendancePreSave att3999).status = AttStatus.Late ∧
    (attendancePreSave att0).status = att0.status ∧
    att0.status = AttStatus.Holiday := by
  refine ⟨?_, by with_unfolding_all rfl, by with_unfolding_all rfl,
    by with_unfolding_all rfl, by with_unfolding_all rfl,
    by with_unfolding_all rfl, rfl⟩
  intro r cin cout hi ho
  simp [attendancePreSave, hi, ho]

/-- Witness for C4: the ladder clause applied to the exactly-eight-hour
record. -/
theorem claim_C4_attendance_status_witness :
    (attendancePreSave att8).status =
      (if (attendancePreSave att8).totalHours ≥ 8 then AttStatus.Present
       else if (attendancePreSave att8).totalHours ≥ 4 then AttStatus.HalfDay
       else if (attendancePreSave att8).totalHours > 0 then AttStatus.Late
       else att8.status) :=
  claim_C4_attendance_status.1 att8 0 (8 * msPerHour) rfl rfl

/-- C7 as amended: the persisted totalHours is recomputed from the clock and
break timestamps, overriding any caller-supplied value, exactly when BOTH
clock timestamps are present — in particular the rounded value the clock-out
route assigns is overridden by the save — while a record with a clock
timestamp missing keeps whatever totalHours it carried. -/
theorem claim_C7_hours_recomputation :
    (∀ (r : Attendance) (cin cout : Millis),
        r.clockIn = some cin → r.clockOut = some cout →
        (attendancePreSave r).totalHours =
          max 0 ((((cout - cin) - breakMillis r : Int) : ℚ) / (msPerHour : ℚ))) ∧
    (∀ r : Attendance, r.clockIn = none ∨ r.clockOut = none →
        attendancePreSave r = r) ∧
    (∀ (now : Millis) (r r2 : Attendance) (cin : Millis),
        r.clockIn = some cin → clockOutRoute now r = Except.ok r2 →
        r2.totalHours =
          max 0 ((((now - cin) - breakMillis r : Int) : ℚ) / (msPerHour : ℚ))) := by
  refine ⟨fun r cin cout hi ho => attendancePreSave_totalHours r cin cout hi ho,
    fun r h => attendancePreSave_skip r h, ?_⟩
  intro now r r2 cin hi h
  rw [clockOutRoute] at h
  split at h
  · exact absurd h (by simp)
  · rw [hi] at h
    simp only at h
    rw [← Except.ok.inj h]
    rw [attendancePreSave_totalHours _ cin now (by simp [hi]) (by simp)]
    simp [breakMillis]

/-- Witness for C7: the recomputation clause applied to the nine-hour record
with its break pair. -/
theorem claim_C7_hours_recomputation_witness :
    (attendancePreSave attBreak).totalHours =
      max 0 ((((9 * msPerHour - 0) - breakMillis attBreak : Int) : ℚ) /
        (msPerHour : ℚ)) :=
  claim_C7_hours_recomputation.1 attBreak 0 (9 * msPerHour) rfl rfl

/-- Counterexample to C7 as stated: a record with clockIn present and
clockOut absent persists whatever totalHours the caller supplied, so the
stored value is not recomputed from the timestamps — two saves with identical
timestamps persist 5 and 7. -/
theorem claim_C7_hours_recomputation_cex :
    halfOpenAttendance.clockIn.isSome = true ∧
    attendancePreSave halfOpenAttendance = halfOpenAttendance ∧
    (attendancePreSave halfOpenAttendance).totalHours = 5 ∧
    (attendancePreSave { halfOpenAttendance with totalHours := 7 }).totalHours = 7 := by
  refine ⟨rfl, by with_unfolding_all rfl, by with_unfolding_all rfl,
    by with_unfolding_all rfl⟩

/-- A saved call-data document always carries the weighted sum of its own
counters, whatever it held before. -/
theorem callDataPreSave_fixed (c : CallData) :
    (callDataPreSave c).performanceScore =
      computeScore (callDataPreSave c).visitedToday
        (callDataPreSave c).interestedStudents
        (callDataPreSave c).totalCallTime
        (callDataPreSave c).totalCalls := rfl

/-- Every successful result of the call-data update route is the image of a
save, hence carries a recomputed score. -/
theorem updateCallData_ok_shape (actor : Actor) (today : Millis)
    (attDb : List Attendance) (cd r : CallData) (b : UpdateCallBody)
    (h : updateCallData actor today attDb cd b = Except.ok r) :
    ∃ c, r = callDataPreSave c := by
  rw [updateCallData] at h
  split at h
  · exact absurd h (by simp)
  · split at h
    · exact absurd h (by simp)
    · exact ⟨_, (Except.ok.inj h).symm⟩

/-- Every successful result of the call-data upsert route is the image of a
save, hence carries a recomputed score. -/
theorem postCallData_ok_shape (actor : Actor) (today now : Millis)
    (attDb : List Attendance) (callDb : List CallData) (newId : Nat)
    (b : PostCallBody) (r : CallData)
    (h : postCallData actor today now attDb callDb newId b = Except.ok r) :
    ∃ c, r = callDataPreSave c := by
  rw [postCallData] at h
  split at h
  · exact absurd h (by simp)
  · split at h
    · exact absurd h (by simp)
    · split at h
      · exact ⟨_, (Except.ok.inj h).symm⟩
      · exact ⟨_, (Except.ok.inj h).symm⟩

/-- C6: every persisted call-data document, created or updated, stores
performanceScore = visitedToday*40 + interestedStudents*30 + totalCallTime*0.2
+ totalCalls*0.1, recomputed from its own counters and independent of any
caller-supplied score; computeScore(2, 3, 60, 10) = 183. -/
theorem claim_C6_score_derivation :
    (∀ r : CallData, (callDataPreSave r).performanceScore =
        computeScore r.visitedToday r.interestedStudents r.totalCallTime r.totalCalls) ∧
    (∀ (r : CallData) (x : ℚ),
        callDataPreSave { r with performanceScore := x } = callDataPreSave r) ∧
    (∀ (actor : Actor) (today : Millis) (attDb : List Attendance)
        (cd r : CallData) (b : UpdateCallBody),
        updateCallData actor today attDb cd b = Except.ok r →
        r.performanceScore =
          computeScore r.visitedToday r.interestedStudents
            r.totalCallTime r.totalCalls) ∧
    (∀ (actor : Actor) (today now : Millis) (attDb : List Attendance)
        (callDb : List CallData) (newId : Nat) (b : PostCallBody) (r : CallData),
        postCallData actor today now attDb callDb newId b = Except.ok r →
        r.performanceScore =
          computeScore r.visitedToday r.interestedStudents
            r.totalCallTime r.totalCalls) ∧
    computeScore 2 3 60 10 = 183 := by
  refine ⟨fun r => rfl, fun r x => rfl, ?_, ?_, by with_unfolding_all rfl⟩
  · intro actor today attDb cd r b h
    obtain ⟨c, hc⟩ := updateCallData_ok_shape actor today attDb cd r b h
    subst hc
    exact callDataPreSave_fixed c
  · intro actor today now attDb callDb newId b r h
    obtain ⟨c, hc⟩ := postCallData_ok_shape actor today now attDb callDb newId b r h
    subst hc
    exact callDataPreSave_fixed c

/-- Witness for C6: the update clause applied to a concrete admin edit of the
stored example record. -/
theorem claim_C6_score_derivation_witness :
    cdEmp2Updated.performanceScore =
      computeScore cdEmp2Updated.visitedToday cdEmp2Updated.interestedStudents
        cdEmp2Updated.totalCallTime cdEmp2Updated.totalCalls :=
  claim_C6_score_derivation.2.2.1 adminActor 0 [] cdEmp2 cdEmp2Updated
    emptyUpdateCallBody (by with_unfolding_all rfl)

/-- C5 as amended: Pending is the only state from which approve or reject
succeeds, and each succeeds at most once — approving a Pending request stores
status Approved with the actor id and the approval timestamp, while rejecting
a Pending request stores only the status change, because the route writes the
actor and timestamp to non-schema paths; approve or reject on any non-Pending
request fails with an error and mutates nothing, so a second approve fails. -/
theorem claim_C5_status_transitions :
    (∀ (a : Nat) (t : Millis) (l r : Leave), approveLeave a t l = Except.ok r →
        l.status = LeaveStatus.Pending ∧ r.status = LeaveStatus.Approved ∧
        r.approvedBy = some a ∧ r.approvedDate = some t) ∧
    (∀ (a : Nat) (t : Millis) (l : Leave), l.status ≠ LeaveStatus.Pending →
        approveLeave a t l =
          Except.error "Only pending leave requests can be approved") ∧
    (∀ (a : Nat) (t : Millis) (l : Leave), l.status ≠ LeaveStatus.Pending →
        rejectLeave a t l =
          Except.error "Only pending leave requests can be rejected") ∧
    (∀ (a : Nat) (t : Millis) (l r : Leave), rejectLeave a t l = Except.ok r →
        l.status = LeaveStatus.Pending ∧ r.status = LeaveStatus.Rejected ∧
        r.approvedBy = l.approvedBy ∧ r.approvedDate = l.approvedDate) ∧
    (∀ (a : Nat) (t : Millis) (a2 : Nat) (t2 : Millis) (l r : Leave),
        approveLeave a t l = Except.ok r →
        approveLeave a2 t2 r =
          Except.error "Only pending leave requests can be approved" ∧
        rejectLeave a2 t2 r =
          Except.error "Only pending leave requests can be rejected") := by
  have key1 : ∀ (a : Nat) (t : Millis) (l r : Leave),
      approveLeave a t l = Except.ok r →
      l.status = LeaveStatus.Pending ∧ r.status = LeaveStatus.Approved ∧
      r.approvedBy = some a ∧ r.approvedDate = some t := by
    intro a t l r h
    rw [approveLeave] at h
    split at h
    · exact absurd h (by simp)
    · rename_i hp
      rw [leaveSave, leaveValidateDates] at h
      split at h
      · exact absurd h (by simp [Except.map])
      · simp only [Except.map] at h
        rw [← Except.ok.inj h]
        exact ⟨not_not.mp hp, by simp [leaveSetApprovedDate, leaveComputeTotalDays]⟩
  have key2 : ∀ (a : Nat) (t : Millis) (l : Leave),
      l.status ≠ LeaveStatus.Pending →
      approveLeave a t l =
        Except.error "Only pending leave requests can be approved" := by
    intro a t l h
    rw [approveLeave, if_pos h]
  have key3 : ∀ (a : Nat) (t : Millis) (l : Leave),
      l.status ≠ LeaveStatus.Pending →
      rejectLeave a t l =
        Except.error "Only pending leave requests can be rejected" := by
    intro a t l h
    rw [rejectLeave, if_pos h]
  refine ⟨key1, key2, key3, ?_, ?_⟩
  · intro a t l r h
    rw [rejectLeave] at h
    split at h
    · exact absurd h (by simp)
    · rename_i hp
      rw [leaveSave, leaveValidateDates] at h
      split at h
      · exact absurd h (by simp [Except.map])
      · simp only [Except.map] at h
        rw [← Except.ok.inj h]
        exact ⟨not_not.mp hp, by simp [leaveSetApprovedDate, leaveComputeTotalDays]⟩
  · intro a t a2 t2 l r h
    obtain ⟨-, hst, -, -⟩ := key1 a t l r h
    have hne : r.status ≠ LeaveStatus.Pending := by rw [hst]; simp
    exact ⟨key2 a2 t2 r hne, key3 a2 t2 r hne⟩

/-- Witness for C5: the approve clause applied to the concrete Pending
request. -/
theorem claim_C5_status_transitions_witness :
    pendingLeave.status = LeaveStatus.Pending ∧
    approvedLeave.status = LeaveStatus.Approved ∧
    approvedLeave.approvedBy = some 7 ∧ approvedLeave.approvedDate = some 1000 :=
  claim_C5_status_transitions.1 7 1000 pendingLeave approvedLeave
    (by with_unfolding_all rfl)

/-- Counterexample to C5 as stated: rejecting a Pending request succeeds but
the persisted document carries no actor id and no timestamp — the route
writes rejectedBy and rejectedAt, which the schema does not declare — so the
Pending to Rejected transition does not set the approver/actor id and a
timestamp. -/
theorem claim_C5_status_transitions_cex :
    rejectLeave 7 1000 pendingLeave = Except.ok rejectedLeave ∧
    rejectedLeave.status = LeaveStatus.Rejected ∧
    rejectedLeave.approvedBy = none ∧ rejectedLeave.approvedDate = none := by
  exact ⟨by with_unfolding_all rfl, rfl, rfl, rfl⟩

/-- C8 as amended: the create route runs the overlap check before persisting
and refuses an overlapping request, persisting nothing; the update route runs
no overlap check — an update whose owner and Pending status pass its guards
persists the new date range unconditionally. -/
theorem claim_C8_overlap_enforcement :
    (∀ (db : List Leave) (emp : Nat) (now : Millis) (newId : Nat)
        (b : CreateLeaveBody) (res : List Leave × Leave),
        createLeave db emp now newId b = Except.ok res →
        checkOverlappingLeaves db emp b.startDate b.endDate none = none) ∧
    (∀ (db : List Leave) (emp : Nat) (now : Millis) (newId : Nat)
        (b : CreateLeaveBody) (l : Leave),
        ¬ b.startDate > b.endDate → ¬ b.startDate < now →
        checkOverlappingLeaves db emp b.startDate b.endDate none = some l →
        createLeave db emp now newId b =
          Except.error "You already have a leave request for overlapping dates") ∧
    (∀ (actor : Actor) (now : Millis) (leave : Leave) (rsn : Option String)
        (hd : Option Bool) (s e : Millis),
        leave.employee = actor.id → leave.status = LeaveStatus.Pending →
        s ≤ e →
        ∃ r, updateLeave actor now leave ⟨rsn, hd, some (s, e)⟩ = Except.ok r ∧
          r.startDate = s ∧ r.endDate = e) := by
  refine ⟨?_, ?_, ?_⟩
  · intro db emp now newId b res h
    rw [createLeave] at h
    split at h
    · exact absurd h (by simp)
    · split at h
      · exact absurd h (by simp)
      · split at h
        · exact absurd h (by simp [Except.map])
        · rename_i hnone
          exact hnone
  · intro db emp now newId b l hgt hlt hov
    rw [createLeave, if_neg hgt, if_neg hlt, hov]
  · intro actor now leave rsn hd s e hown hpend hse
    have hne : ¬ (e < s) := not_lt.mpr hse
    refine ⟨leaveSetApprovedDate false now (leaveComputeTotalDays
      { leave with reason := rsn.getD leave.reason, startDate := s, endDate := e,
                   totalDays :=
                     if hd.getD false then (0.5 : ℚ)
                     else (jsCeil (((e - s : Int) : ℚ) / (msPerDay : ℚ)) : ℚ) + 1 }),
      ?_, ?_, ?_⟩
    · simp [updateLeave, hown, hpend, hne, leaveSave, leaveValidateDates,
        leaveComputeTotalDays, Except.map]
    · simp [leaveSetApprovedDate, leaveComputeTotalDays]
    · simp [leaveSetApprovedDate, leaveComputeTotalDays]

/-- Witness for C8: the create-refusal clause applied to a creation attempt
inside the stored Approved vacation. -/
theorem claim_C8_overlap_enforcement_witness :
    createLeave exampleDb 1 0 6 overlapCreateBody =
      Except.error "You already have a leave request for overlapping dates" :=
  claim_C8_overlap_enforcement.2.1 exampleDb 1 0 6 overlapCreateBody
    approvedVacation (by decide) (by decide) (by with_unfolding_all rfl)

/-- Counterexample to C8 as stated: employee 1 updates their Pending request
onto [2024-01-22, 2024-01-23], inside their own Approved
[2024-01-20, 2024-01-25]; the update persists even though the overlap
predicate flags the stored range against the same employee. -/
theorem claim_C8_overlap_enforcement_cex :
    updateLeave actorEmp1 0 pendingLeave overlapUpdateBody =
      Except.ok updatedOverlapLeave ∧
    (checkOverlappingLeaves exampleDb 1 updatedOverlapLeave.startDate
      updatedOverlapLeave.endDate (some pendingLeave.id)).isSome = true := by
  exact ⟨by with_unfolding_all rfl, by with_unfolding_all rfl⟩

/-- C9: a non-admin editing call data dated today is refused with an error once
their own attendance for today shows a clockOut, on both the update and the
upsert path, and the refused record is unchanged; an admin succeeds
unconditionally on both paths, whatever any attendance shows, including on
the record of another employee. -/
theorem claim_C9_checkout_lock :
    (∀ (actor : Actor) (today : Millis) (attDb : List Attendance)
        (cd : CallData) (b : UpdateCallBody) (a : Attendance),
        actor.role ≠ Role.admin → cd.employee = actor.id →
        normalizeDay cd.date = today →
        findTodayAttendance attDb actor.id today = some a →
        a.clockOut.isSome = true →
        updateCallData actor today attDb cd b =
          Except.error "Cannot edit call data after checking out") ∧
    (∀ (actor : Actor) (today : Millis) (attDb : List Attendance)
        (cd : CallData) (b : UpdateCallBody), actor.role = Role.admin →
        ∃ r, updateCallData actor today attDb cd b = Except.ok r) ∧
    (∀ (actor : Actor) (today now : Millis) (attDb : List Attendance)
        (callDb : List CallData) (newId : Nat) (b : PostCallBody)
        (a : Attendance),
        actor.role ≠ Role.admin → b.employee = none →
        normalizeDay (b.date.getD now) = today →
        findTodayAttendance attDb actor.id today = some a →
        a.clockOut.isSome = true →
        postCallData actor today now attDb callDb newId b =
          Except.error "Cannot add/edit call data after checking out") ∧
    (∀ (actor : Actor) (today now : Millis) (attDb : List Attendance)
        (callDb : List CallData) (newId : Nat) (b : PostCallBody),
        actor.role = Role.admin →
        ∃ r, postCallData actor today now attDb callDb newId b = Except.ok r) := by
  refine ⟨?_, ?_, ?_, ?_⟩
  · intro actor today attDb cd b a hrole hown hday hfind hco
    have hlock : checkoutLocked attDb actor.id today (normalizeDay cd.date) = true := by
      rw [hday, checkoutLocked]
      simp [hfind, hco]
    rw [updateCallData, if_neg (by simp [hown]), if_pos ⟨hrole, hlock⟩]
  · intro actor today attDb cd b h
    rw [updateCallData, if_neg (by simp [h]), if_neg (by simp [h])]
    exact ⟨_, rfl⟩
  · intro actor today now attDb callDb newId b a hrole hemp hday hfind hco
    have hlock : checkoutLocked attDb actor.id today
        (normalizeDay (b.date.getD now)) = true := by
      rw [hday, checkoutLocked]
      simp [hfind, hco]
    rw [postCallData, if_neg (by simp [hemp]), if_pos ⟨hrole, hlock⟩]
  · intro actor today now attDb callDb newId b h
    rw [postCallData, if_neg (by simp [h]), if_neg (by simp [h])]
    cases hfind : findCallData callDb (b.employee.getD actor.id)
        (normalizeDay (b.date.getD now)) <;> simp [hfind]

/-- Witness for C9: the admin clause applied to a concrete edit of employee
2 records by the admin while the attendance of employee 2 shows a clockOut. -/
theorem claim_C9_checkout_lock_witness :
    (∃ r, updateCallData adminActor 0 attDbEmp2 cdEmp2 emptyUpdateCallBody =
      Except.ok r) ∧
    checkedOutAtt.clockOut.isSome = true ∧ cdEmp2.employee = 2 ∧
    adminActor.id ≠ 2 :=
  ⟨claim_C9_checkout_lock.2.1 adminActor 0 attDbEmp2 cdEmp2
      emptyUpdateCallBody rfl, rfl, rfl, by decide⟩

/-- C10 as amended: computeScore is total on all rational inputs and returns
the unclamped weighted sum, so the function itself yields a negative score on
a negative input; but a negative input never reaches a persisted score — the
min: 0 validators make the save of any document carrying a negative counter
fail before the score hook runs, so nothing is persisted and every persisted
performanceScore is non-negative. -/
theorem claim_C10_scorer_totality :
    (∀ v i t c : ℚ,
      computeScore v i t c = v * 40 + i * 30 + t * (0.2 : ℚ) + c * (0.1 : ℚ)) ∧
    computeScore (-1) 0 0 0 = -40 ∧
    (∀ r : CallData,
      r.totalCalls < 0 ∨ r.totalCallTime < 0 ∨ r.interestedStudents < 0 ∨
        r.visitedToday < 0 →
      ∃ msg, callDataSave r = Except.error msg) ∧
    (∀ r r2 : CallData, callDataSave r = Except.ok r2 →
      0 ≤ r2.performanceScore) := by
  refine ⟨fun v i t c => rfl, by with_unfolding_all rfl, ?_, ?_⟩
  · intro r h
    rw [callDataSave, callDataValidate]
    split_ifs with h1 h2 h3 h4 h5
    · exact ⟨_, rfl⟩
    · exact ⟨_, rfl⟩
    · exact ⟨_, rfl⟩
    · exact ⟨_, rfl⟩
    · exact ⟨_, rfl⟩
    · rcases h with h | h | h | h
      exacts [absurd h h1, absurd h h2, absurd h h3, absurd h h4]
  · intro r r2 h
    rw [callDataSave, callDataValidate] at h
    split_ifs at h with h1 h2 h3 h4 h5
    · exact absurd h (by simp [Except.map])
    · exact absurd h (by simp [Except.map])
    · exact absurd h (by simp [Except.map])
    · exact absurd h (by simp [Except.map])
    · exact absurd h (by simp [Except.map])
    simp only [Except.map] at h
    rw [← Except.ok.inj h]
    have hv := not_lt.mp h4
    have hi := not_lt.mp h3
    have ht := not_lt.mp h2
    have hc := not_lt.mp h1
    simp only [callDataPreSave, computeScore]
    linarith

/-- Witness for C10: the non-negative-persistence clause applied to the
concrete successful save of the example record. -/
theorem claim_C10_scorer_totality_witness :
    (0 : ℚ) ≤ cdEmp2Saved.performanceScore :=
  claim_C10_scorer_totality.2.2.2 cdEmp2 cdEmp2Saved (by with_unfolding_all rfl)

/-- Counterexample to C10 as stated: the scorer does compute -40 from
visitedToday = -1, but that negative input does not propagate into a
persisted score — the save of the document is rejected by the visitedToday
min: 0 validator before the score hook runs, and nothing is persisted. -/
theorem claim_C10_scorer_totality_cex :
    computeScore (-1) 0 0 0 = -40 ∧ ((-40 : ℚ) < 0) ∧
    callDataSave negativeCallData =
      Except.error "ValidationError: visitedToday below minimum (0)" := by
  exact ⟨by with_unfolding_all rfl, by with_unfolding_all decide,
    by with_unfolding_all rfl⟩

end HRM
